import Mathlib

/-!
Verification of the MRV-P core engine (feature computation, tonnage
prediction, compliance scoring) from `src/app.py`, shallowly embedded
over the rationals.  Python floats are modelled as `ℚ`; `np.clip` and
`np.nan`-free paths are modelled exactly as the source computes them.
-/

/-- The denominator floor `1e-9` used throughout `app.py`. -/
def eps : ℚ := 1 / 1000000000

/-- Embedding of `np.clip(x, lo, hi)` for scalars: `min (max x lo) hi`. -/
def np_clip (x lo hi : ℚ) : ℚ := min (max x lo) hi

/-- Embedding of `safe_div(a, b, default)` from `app.py` line 23:
`a / b if b not in (0, 0.0, None) else default`. -/
def safe_div (a b default : ℚ) : ℚ := if b ≠ 0 then a / b else default

/-- One operational record: the five numeric fields of the input row,
already coerced to numbers (`float(row.get(..., 0))` in the source). -/
structure OperationalRecord where
  horas_corte : ℚ
  energia_kwh : ℚ
  num_viagens : ℚ
  area_m2 : ℚ
  peso_estimado_t : ℚ
deriving DecidableEq

/-- The feature dictionary returned by `compute_features`: the five raw
fields plus the four steel ratios and the operational efficiency index. -/
structure FeatureSet where
  horas_corte : ℚ
  energia_kwh : ℚ
  num_viagens : ℚ
  area_m2 : ℚ
  peso_estimado_t : ℚ
  aco_por_hora : ℚ
  aco_por_kwh : ℚ
  aco_por_viagem : ℚ
  aco_por_m2 : ℚ
  OEI : ℚ
deriving DecidableEq

/-- Embedding of `compute_features` (`app.py` lines 26-54). -/
def compute_features (row : OperationalRecord) : FeatureSet :=
  let horas := row.horas_corte
  let energia := row.energia_kwh
  let viagens := row.num_viagens
  let area := row.area_m2
  let peso := row.peso_estimado_t
  let aco_por_hora := safe_div peso (max horas eps) 0
  let aco_por_kwh := safe_div peso (max energia eps) 0
  let aco_por_viagem := safe_div peso (max viagens eps) 0
  let aco_por_m2 := safe_div peso (max area eps) 0
  let oei := safe_div aco_por_hora (max energia eps) 0
  { horas_corte := horas
    energia_kwh := energia
    num_viagens := viagens
    area_m2 := area
    peso_estimado_t := peso
    aco_por_hora := aco_por_hora
    aco_por_kwh := aco_por_kwh
    aco_por_viagem := aco_por_viagem
    aco_por_m2 := aco_por_m2
    OEI := oei }

/-- Embedding of `predict_steel_t` (`app.py` lines 56-73): returns
`(pred, p05, p95)`. -/
def predict_steel_t (features : FeatureSet) : ℚ × ℚ × ℚ :=
  let base := features.peso_estimado_t * (95 / 100)
  let oei := features.OEI
  let adj := 1 + np_clip (oei * 10000) (-(5 / 100)) (5 / 100)
  let pred := base * adj
  let p05 := pred * (90 / 100)
  let p95 := pred * (110 / 100)
  (pred, p05, p95)

/-- The three compliance status tiers returned by `mrv_score`. -/
inductive Status where
  | CONFORME
  | ATENCAO
  | NAO_CONFORME
deriving DecidableEq

/-- The threshold classification of `app.py` line 94:
`"CONFORME" if score >= 0.80 else "ATENÇÃO" if score >= 0.60 else "NÃO CONFORME"`. -/
def statusOf (score : ℚ) : Status :=
  if score ≥ 8 / 10 then Status.CONFORME
  else if score ≥ 6 / 10 then Status.ATENCAO
  else Status.NAO_CONFORME

/-- The dictionary returned by `mrv_score`. -/
structure MRVResult where
  completude : ℚ
  consistencia : ℚ
  evidencia : ℚ
  score : ℚ
  status : Status
deriving DecidableEq

/-- Embedding of `mrv_score` (`app.py` lines 75-101).  The `filled` count
checks each required field against `(0, 0.0, None, np.nan)`, which for a
rational value is just being nonzero; the consistency penalties are the
sequential subtractions of lines 82-88. -/
def mrv_score (features : FeatureSet) (w_comp w_cons w_evid evidence_level : ℚ) :
    MRVResult :=
  let required := [features.horas_corte, features.energia_kwh,
    features.num_viagens, features.area_m2, features.peso_estimado_t]
  let filled := (required.filter (fun x => decide (x ≠ 0))).length
  let completude : ℚ := (filled : ℚ) / (required.length : ℚ)
  let cons0 : ℚ := 1
  let cons1 := if features.horas_corte ≤ 0 ∨ features.energia_kwh ≤ 0 then
    cons0 - 3 / 10 else cons0
  let cons2 := if features.peso_estimado_t ≤ 0 then cons1 - 4 / 10 else cons1
  let cons3 := if features.aco_por_hora > 200 then cons2 - 2 / 10 else cons2
  let consistencia := np_clip cons3 0 1
  let evidencia := np_clip evidence_level 0 1
  let score := w_comp * completude + w_cons * consistencia + w_evid * evidencia
  { completude := completude
    consistencia := consistencia
    evidencia := evidencia
    score := score
    status := statusOf score }

/-- Embedding of the manual-entry pipeline (`app.py` lines 171-186): the
weights are normalized by their sum floored at `1e-9`, the features are
computed, and `mrv_score` is called with the normalized weights. -/
def run_manual (r : OperationalRecord) (w_comp w_cons w_evid evidence_level : ℚ) :
    MRVResult :=
  let s := max (w_comp + w_cons + w_evid) eps
  mrv_score (compute_features r) (w_comp / s) (w_cons / s) (w_evid / s)
    evidence_level

/-- The all-zero operational record of spec scenario B. -/
def zero_record : OperationalRecord := ⟨0, 0, 0, 0, 0⟩

/-- A record with zero cutting hours but positive weight: the input that
exercises the denominator floor. -/
def zero_hours_record : OperationalRecord := ⟨0, 1, 1, 1, 1⟩

/-- The reference default record of spec scenario A. -/
def template_record : OperationalRecord := ⟨120, 4500, 15, 1800, 900⟩

/-- The floor `1e-9` is positive. -/
lemma eps_pos : (0 : ℚ) < eps := by norm_num [eps]

/-- Every floored denominator `max x eps` is positive. -/
lemma max_eps_pos (x : ℚ) : 0 < max x eps :=
  lt_of_lt_of_le eps_pos (le_max_right x eps)

/-- With a nonzero denominator, `safe_div` takes the division branch. -/
lemma safe_div_of_ne (a b d : ℚ) (hb : b ≠ 0) : safe_div a b d = a / b := by
  simp [safe_div, hb]

lemma compute_horas (r : OperationalRecord) :
    (compute_features r).horas_corte = r.horas_corte := rfl

lemma compute_energia (r : OperationalRecord) :
    (compute_features r).energia_kwh = r.energia_kwh := rfl

lemma compute_viagens (r : OperationalRecord) :
    (compute_features r).num_viagens = r.num_viagens := rfl

lemma compute_area (r : OperationalRecord) :
    (compute_features r).area_m2 = r.area_m2 := rfl

lemma compute_peso (r : OperationalRecord) :
    (compute_features r).peso_estimado_t = r.peso_estimado_t := rfl

lemma compute_aco_por_hora (r : OperationalRecord) :
    (compute_features r).aco_por_hora = r.peso_estimado_t / max r.horas_corte eps := by
  have h := (max_eps_pos r.horas_corte).ne'
  simp [compute_features, safe_div, h]

lemma compute_aco_por_kwh (r : OperationalRecord) :
    (compute_features r).aco_por_kwh = r.peso_estimado_t / max r.energia_kwh eps := by
  have h := (max_eps_pos r.energia_kwh).ne'
  simp [compute_features, safe_div, h]

lemma compute_aco_por_viagem (r : OperationalRecord) :
    (compute_features r).aco_por_viagem = r.peso_estimado_t / max r.num_viagens eps := by
  have h := (max_eps_pos r.num_viagens).ne'
  simp [compute_features, safe_div, h]

lemma compute_aco_por_m2 (r : OperationalRecord) :
    (compute_features r).aco_por_m2 = r.peso_estimado_t / max r.area_m2 eps := by
  have h := (max_eps_pos r.area_m2).ne'
  simp [compute_features, safe_div, h]

lemma compute_OEI (r : OperationalRecord) :
    (compute_features r).OEI =
      (r.peso_estimado_t / max r.horas_corte eps) / max r.energia_kwh eps := by
  have h1 := (max_eps_pos r.horas_corte).ne'
  have h2 := (max_eps_pos r.energia_kwh).ne'
  simp [compute_features, safe_div, h1, h2]

/-- The clip result never exceeds the upper bound. -/
lemma np_clip_le (x lo hi : ℚ) : np_clip x lo hi ≤ hi := min_le_right _ _

/-- The clip result is at least the lower bound when the bounds are ordered. -/
lemma le_np_clip (x lo hi : ℚ) (h : lo ≤ hi) : lo ≤ np_clip x lo hi :=
  le_min (le_max_right x lo) h

/-- Claim C1, as stated, is false at a concrete input: for the record with
`horas_corte = 0` and `peso_estimado_t = 1`, the ratio `aco_por_hora`
returned by `compute_features` is `1 / 1e-9 = 1e9`, not `0.0`. -/
theorem C1_zero_denom_not_zero_counterexample :
    zero_hours_record.horas_corte = 0 ∧
    (compute_features zero_hours_record).aco_por_hora = 1000000000 ∧
    ¬ (compute_features zero_hours_record).aco_por_hora = 0 := by
  refine ⟨rfl, ?_, ?_⟩ <;>
    norm_num [compute_features, safe_div, zero_hours_record, eps, max_def]

/-- Claim C1 (amended): a zero (defaulted) denominator never causes an error
or NaN; the corresponding ratio equals `estimated_weight_t / 1e-9`, which is
exactly `0.0` precisely when `estimated_weight_t = 0` — in particular, when
`estimated_weight_t = 0` all four ratios and the OEI are exactly `0.0`. -/
theorem C1_zero_denom_floor (r : OperationalRecord) :
    (r.horas_corte = 0 → (compute_features r).aco_por_hora = r.peso_estimado_t / eps) ∧
    (r.energia_kwh = 0 → (compute_features r).aco_por_kwh = r.peso_estimado_t / eps) ∧
    (r.num_viagens = 0 → (compute_features r).aco_por_viagem = r.peso_estimado_t / eps) ∧
    (r.area_m2 = 0 → (compute_features r).aco_por_m2 = r.peso_estimado_t / eps) ∧
    (r.peso_estimado_t = 0 →
      (compute_features r).aco_por_hora = 0 ∧ (compute_features r).aco_por_kwh = 0 ∧
      (compute_features r).aco_por_viagem = 0 ∧ (compute_features r).aco_por_m2 = 0 ∧
      (compute_features r).OEI = 0) := by
  refine ⟨?_, ?_, ?_, ?_, ?_⟩
  · intro h
    rw [compute_aco_por_hora, h, max_eq_right eps_pos.le]
  · intro h
    rw [compute_aco_por_kwh, h, max_eq_right eps_pos.le]
  · intro h
    rw [compute_aco_por_viagem, h, max_eq_right eps_pos.le]
  · intro h
    rw [compute_aco_por_m2, h, max_eq_right eps_pos.le]
  · intro h
    rw [compute_aco_por_hora, compute_aco_por_kwh, compute_aco_por_viagem,
      compute_aco_por_m2, compute_OEI, h]
    simp

/-- Witness for the amended claim C1 at the zero-hours record. -/
theorem C1_zero_denom_floor_witness :
    zero_hours_record.horas_corte = 0 ∧
    (compute_features zero_hours_record).aco_por_hora =
      zero_hours_record.peso_estimado_t / eps :=
  ⟨rfl, (C1_zero_denom_floor zero_hours_record).1 rfl⟩

/-- Claim C2: each ratio is `estimated_weight_t / max(X, 1e-9)` and the OEI is
`aco_por_hora / max(energia_kwh, 1e-9)`; when a denominator is `0` and the
weight is positive, the ratio equals `estimated_weight_t / 1e-9` and is not
special-cased to `0`. -/
theorem C2_ratio_formulas (r : OperationalRecord) :
    (compute_features r).aco_por_hora = r.peso_estimado_t / max r.horas_corte eps ∧
    (compute_features r).aco_por_kwh = r.peso_estimado_t / max r.energia_kwh eps ∧
    (compute_features r).aco_por_viagem = r.peso_estimado_t / max r.num_viagens eps ∧
    (compute_features r).aco_por_m2 = r.peso_estimado_t / max r.area_m2 eps ∧
    (compute_features r).OEI = (compute_features r).aco_por_hora / max r.energia_kwh eps ∧
    (r.horas_corte = 0 → 0 < r.peso_estimado_t →
      (compute_features r).aco_por_hora = r.peso_estimado_t / eps ∧
      (compute_features r).aco_por_hora ≠ 0) := by
  refine ⟨compute_aco_por_hora r, compute_aco_por_kwh r, compute_aco_por_viagem r,
    compute_aco_por_m2 r, ?_, ?_⟩
  · rw [compute_OEI, compute_aco_por_hora]
  · intro h hp
    rw [compute_aco_por_hora, h, max_eq_right eps_pos.le]
    exact ⟨rfl, div_ne_zero hp.ne' eps_pos.ne'⟩

/-- Witness for claim C2 at the zero-hours record with positive weight. -/
theorem C2_ratio_formulas_witness :
    zero_hours_record.horas_corte = 0 ∧ 0 < zero_hours_record.peso_estimado_t ∧
    (compute_features zero_hours_record).aco_por_hora =
        zero_hours_record.peso_estimado_t / eps ∧
    (compute_features zero_hours_record).aco_por_hora ≠ 0 :=
  ⟨rfl, by norm_num [zero_hours_record],
    (C2_ratio_formulas zero_hours_record).2.2.2.2.2 rfl (by norm_num [zero_hours_record])⟩

/-- Claim C10 (implicit): every denominator `compute_features` passes to
`safe_div` is `max(X, 1e-9) > 0`; `safe_div` with a nonzero denominator takes
the division branch (so the defaulted branch is unreachable and the features
are plain finite quotients); and non-negative inputs give non-negative ratios
and OEI. -/
theorem C10_denominators_positive (r : OperationalRecord) :
    (0 < max r.horas_corte eps ∧ 0 < max r.energia_kwh eps ∧
      0 < max r.num_viagens eps ∧ 0 < max r.area_m2 eps) ∧
    (∀ a b d : ℚ, b ≠ 0 → safe_div a b d = a / b) ∧
    (0 ≤ r.peso_estimado_t →
      0 ≤ (compute_features r).aco_por_hora ∧ 0 ≤ (compute_features r).aco_por_kwh ∧
      0 ≤ (compute_features r).aco_por_viagem ∧ 0 ≤ (compute_features r).aco_por_m2 ∧
      0 ≤ (compute_features r).OEI) := by
  refine ⟨⟨max_eps_pos _, max_eps_pos _, max_eps_pos _, max_eps_pos _⟩,
    fun a b d hb => safe_div_of_ne a b d hb, ?_⟩
  intro hp
  rw [compute_aco_por_hora, compute_aco_por_kwh, compute_aco_por_viagem,
    compute_aco_por_m2, compute_OEI]
  have h1 := (max_eps_pos r.horas_corte).le
  have h2 := (max_eps_pos r.energia_kwh).le
  have h3 := (max_eps_pos r.num_viagens).le
  have h4 := (max_eps_pos r.area_m2).le
  exact ⟨div_nonneg hp h1, div_nonneg hp h2, div_nonneg hp h3, div_nonneg hp h4,
    div_nonneg (div_nonneg hp h1) h2⟩

/-- Witness for claim C10 at the template record. -/
theorem C10_denominators_positive_witness :
    0 ≤ template_record.peso_estimado_t ∧
    0 ≤ (compute_features template_record).aco_por_hora :=
  ⟨by norm_num [template_record],
    ((C10_denominators_positive template_record).2.2 (by norm_num [template_record])).1⟩

/-- Claim C3: `predict_steel_t` returns
`point = (weight * 0.95) * (1 + clamp(OEI * 10000, -0.05, 0.05))`,
`low = point * 0.90`, `high = point * 1.10`; and for every OEI value the
point estimate stays within 5% of the base `weight * 0.95` in either
direction (for a feature set of the data model, i.e. non-negative weight). -/
theorem C3_predict_formula (f : FeatureSet) (h : 0 ≤ f.peso_estimado_t) :
    (predict_steel_t f).1 =
      f.peso_estimado_t * (95 / 100) *
        (1 + np_clip (f.OEI * 10000) (-(5 / 100)) (5 / 100)) ∧
    (predict_steel_t f).2.1 = (predict_steel_t f).1 * (90 / 100) ∧
    (predict_steel_t f).2.2 = (predict_steel_t f).1 * (110 / 100) ∧
    (95 / 100) * (f.peso_estimado_t * (95 / 100)) ≤ (predict_steel_t f).1 ∧
    (predict_steel_t f).1 ≤ (105 / 100) * (f.peso_estimado_t * (95 / 100)) := by
  have hc1 : -(5 / 100 : ℚ) ≤ np_clip (f.OEI * 10000) (-(5 / 100)) (5 / 100) :=
    le_np_clip _ _ _ (by norm_num)
  have hc2 : np_clip (f.OEI * 10000) (-(5 / 100)) (5 / 100) ≤ 5 / 100 :=
    np_clip_le _ _ _
  refine ⟨rfl, rfl, rfl, ?_, ?_⟩
  · show (95 / 100 : ℚ) * (f.peso_estimado_t * (95 / 100)) ≤
      f.peso_estimado_t * (95 / 100) * (1 + np_clip (f.OEI * 10000) (-(5 / 100)) (5 / 100))
    nlinarith
  · show f.peso_estimado_t * (95 / 100) *
        (1 + np_clip (f.OEI * 10000) (-(5 / 100)) (5 / 100)) ≤
      (105 / 100 : ℚ) * (f.peso_estimado_t * (95 / 100))
    nlinarith

/-- Witness for claim C3 at the template record's feature set. -/
theorem C3_predict_formula_witness :
    0 ≤ (compute_features template_record).peso_estimado_t ∧
    (95 / 100 : ℚ) * ((compute_features template_record).peso_estimado_t * (95 / 100)) ≤
      (predict_steel_t (compute_features template_record)).1 :=
  ⟨by norm_num [compute_features, template_record],
    (C3_predict_formula (compute_features template_record)
      (by norm_num [compute_features, template_record])).2.2.2.1⟩

/-- Claim C4: for every record with non-negative estimated weight, the
prediction of the pipeline satisfies `low ≤ point ≤ high` and `point ≥ 0`. -/
theorem C4_interval_ordering (r : OperationalRecord) (h : 0 ≤ r.peso_estimado_t) :
    (predict_steel_t (compute_features r)).2.1 ≤ (predict_steel_t (compute_features r)).1 ∧
    (predict_steel_t (compute_features r)).1 ≤ (predict_steel_t (compute_features r)).2.2 ∧
    0 ≤ (predict_steel_t (compute_features r)).1 := by
  have hc1 : -(5 / 100 : ℚ) ≤
      np_clip ((compute_features r).OEI * 10000) (-(5 / 100)) (5 / 100) :=
    le_np_clip _ _ _ (by norm_num)
  have hp : (compute_features r).peso_estimado_t = r.peso_estimado_t := rfl
  have h1 : (predict_steel_t (compute_features r)).1 =
      (compute_features r).peso_estimado_t * (95 / 100) *
        (1 + np_clip ((compute_features r).OEI * 10000) (-(5 / 100)) (5 / 100)) := rfl
  have h2 : (predict_steel_t (compute_features r)).2.1 =
      (predict_steel_t (compute_features r)).1 * (90 / 100) := rfl
  have h3 : (predict_steel_t (compute_features r)).2.2 =
      (predict_steel_t (compute_features r)).1 * (110 / 100) := rfl
  have hpred : 0 ≤ (predict_steel_t (compute_features r)).1 := by
    rw [h1, hp]
    nlinarith
  refine ⟨?_, ?_, hpred⟩
  · rw [h2]
    nlinarith
  · rw [h3]
    nlinarith

/-- Witness for claim C4 at the template record. -/
theorem C4_interval_ordering_witness :
    0 ≤ template_record.peso_estimado_t ∧
    (predict_steel_t (compute_features template_record)).2.1 ≤
      (predict_steel_t (compute_features template_record)).1 :=
  ⟨by norm_num [template_record],
    (C4_interval_ordering template_record (by norm_num [template_record])).1⟩

/-- Claim C5: the status returned by `mrv_score` is a function of the score
alone, classified by first-match-wins thresholds: `score ≥ 0.80 → CONFORME`,
`0.60 ≤ score < 0.80 → ATENÇÃO`, `score < 0.60 → NÃO CONFORME`; exactly
`0.80` gives CONFORME and exactly `0.60` gives ATENÇÃO. -/
theorem C5_status_thresholds (f : FeatureSet) (w1 w2 w3 e s : ℚ) :
    (mrv_score f w1 w2 w3 e).status = statusOf (mrv_score f w1 w2 w3 e).score ∧
    (8 / 10 ≤ s → statusOf s = Status.CONFORME) ∧
    (6 / 10 ≤ s → s < 8 / 10 → statusOf s = Status.ATENCAO) ∧
    (s < 6 / 10 → statusOf s = Status.NAO_CONFORME) ∧
    statusOf (8 / 10) = Status.CONFORME ∧ statusOf (6 / 10) = Status.ATENCAO := by
  refine ⟨rfl, ?_, ?_, ?_, by norm_num [statusOf], by norm_num [statusOf]⟩
  · intro h
    simp [statusOf, h]
  · intro h1 h2
    simp only [statusOf, ge_iff_le]
    rw [if_neg (not_le.mpr h2), if_pos h1]
  · intro h
    simp only [statusOf, ge_iff_le]
    rw [if_neg (not_le.mpr (by linarith)), if_neg (not_le.mpr h)]

/-- Witness for claim C5: the score `0.70` sits in the middle band and is
classified ATENÇÃO. -/
theorem C5_status_thresholds_witness :
    (6 / 10 : ℚ) ≤ 7 / 10 ∧ (7 / 10 : ℚ) < 8 / 10 ∧
    statusOf (7 / 10) = Status.ATENCAO :=
  ⟨by norm_num, by norm_num,
    (C5_status_thresholds (compute_features zero_record) 1 1 1 1 (7 / 10)).2.2.1
      (by norm_num) (by norm_num)⟩

/-- Claim C6: the consistency sub-score equals `1` minus the three
conditional penalties (`0.3`, `0.4`, `0.2`) clamped to `[0, 1]`; the
penalties accumulate as a sum, so the result is independent of the order in
which they are subtracted. -/
theorem C6_consistency_penalties (f : FeatureSet) (w1 w2 w3 e : ℚ) :
    (mrv_score f w1 w2 w3 e).consistencia =
      np_clip (1 - ((if f.horas_corte ≤ 0 ∨ f.energia_kwh ≤ 0 then (3 / 10 : ℚ) else 0) +
        (if f.peso_estimado_t ≤ 0 then (4 / 10 : ℚ) else 0) +
        (if 200 < f.aco_por_hora then (2 / 10 : ℚ) else 0))) 0 1 ∧
    (mrv_score f w1 w2 w3 e).consistencia =
      np_clip (1 - (if 200 < f.aco_por_hora then (2 / 10 : ℚ) else 0)
        - (if f.peso_estimado_t ≤ 0 then (4 / 10 : ℚ) else 0)
        - (if f.horas_corte ≤ 0 ∨ f.energia_kwh ≤ 0 then (3 / 10 : ℚ) else 0)) 0 1 := by
  constructor <;>
  · simp only [mrv_score]
    split_ifs <;> norm_num

/-- The completeness sub-score is the filled-field count over five. -/
lemma mrv_completude_eq (f : FeatureSet) (w1 w2 w3 e : ℚ) :
    (mrv_score f w1 w2 w3 e).completude =
      ((([f.horas_corte, f.energia_kwh, f.num_viagens, f.area_m2,
        f.peso_estimado_t].filter (fun x => decide (x ≠ 0))).length : ℚ)) / 5 := by
  simp [mrv_score]

/-- The completeness sub-score is non-negative. -/
lemma mrv_completude_nonneg (f : FeatureSet) (w1 w2 w3 e : ℚ) :
    0 ≤ (mrv_score f w1 w2 w3 e).completude := by
  rw [mrv_completude_eq]
  positivity

/-- The completeness sub-score is at most one. -/
lemma mrv_completude_le_one (f : FeatureSet) (w1 w2 w3 e : ℚ) :
    (mrv_score f w1 w2 w3 e).completude ≤ 1 := by
  rw [mrv_completude_eq, div_le_one (by norm_num)]
  have h : (([f.horas_corte, f.energia_kwh, f.num_viagens, f.area_m2,
      f.peso_estimado_t].filter (fun x => decide (x ≠ 0))).length) ≤ 5 :=
    List.length_filter_le _ _
  exact_mod_cast h

/-- The consistency sub-score is non-negative (it is clamped to `[0, 1]`). -/
lemma mrv_consistencia_nonneg (f : FeatureSet) (w1 w2 w3 e : ℚ) :
    0 ≤ (mrv_score f w1 w2 w3 e).consistencia :=
  le_np_clip _ 0 1 (by norm_num)

/-- The consistency sub-score is at most one. -/
lemma mrv_consistencia_le_one (f : FeatureSet) (w1 w2 w3 e : ℚ) :
    (mrv_score f w1 w2 w3 e).consistencia ≤ 1 :=
  np_clip_le _ 0 1

/-- The evidence sub-score is non-negative (it is clamped to `[0, 1]`). -/
lemma mrv_evidencia_nonneg (f : FeatureSet) (w1 w2 w3 e : ℚ) :
    0 ≤ (mrv_score f w1 w2 w3 e).evidencia :=
  le_np_clip _ 0 1 (by norm_num)

/-- The evidence sub-score is at most one. -/
lemma mrv_evidencia_le_one (f : FeatureSet) (w1 w2 w3 e : ℚ) :
    (mrv_score f w1 w2 w3 e).evidencia ≤ 1 :=
  np_clip_le _ 0 1

/-- The score is the weighted sum of the three sub-scores. -/
lemma mrv_score_eq (f : FeatureSet) (w1 w2 w3 e : ℚ) :
    (mrv_score f w1 w2 w3 e).score =
      w1 * (mrv_score f w1 w2 w3 e).completude +
      w2 * (mrv_score f w1 w2 w3 e).consistencia +
      w3 * (mrv_score f w1 w2 w3 e).evidencia := rfl

/-- Claim C7: for every record, evidence level, and weight triple with each
weight in `[0, 1]` and not all zero, the score of the manual-entry pipeline
(weights normalized by their sum floored at `1e-9`) lies in `[0, 1]`. -/
theorem C7_score_bounds (r : OperationalRecord) (e w1 w2 w3 : ℚ)
    (h1 : 0 ≤ w1) (h1u : w1 ≤ 1) (h2 : 0 ≤ w2) (h2u : w2 ≤ 1)
    (h3 : 0 ≤ w3) (h3u : w3 ≤ 1) (hnz : ¬ (w1 = 0 ∧ w2 = 0 ∧ w3 = 0)) :
    0 ≤ (run_manual r w1 w2 w3 e).score ∧ (run_manual r w1 w2 w3 e).score ≤ 1 := by
  have hrm : run_manual r w1 w2 w3 e =
      mrv_score (compute_features r) (w1 / max (w1 + w2 + w3) eps)
        (w2 / max (w1 + w2 + w3) eps) (w3 / max (w1 + w2 + w3) eps) e := rfl
  set f := compute_features r
  set s := max (w1 + w2 + w3) eps with hs
  have hs0 : 0 < s := max_eps_pos _
  have hsum : w1 + w2 + w3 ≤ s := le_max_left _ _
  have hw1 : 0 ≤ w1 / s := div_nonneg h1 hs0.le
  have hw2 : 0 ≤ w2 / s := div_nonneg h2 hs0.le
  have hw3 : 0 ≤ w3 / s := div_nonneg h3 hs0.le
  rw [hrm, mrv_score_eq]
  set c := (mrv_score f (w1 / s) (w2 / s) (w3 / s) e).completude with hc
  set k := (mrv_score f (w1 / s) (w2 / s) (w3 / s) e).consistencia with hk
  set v := (mrv_score f (w1 / s) (w2 / s) (w3 / s) e).evidencia with hv
  have hc0 : 0 ≤ c := mrv_completude_nonneg f _ _ _ e
  have hc1 : c ≤ 1 := mrv_completude_le_one f _ _ _ e
  have hk0 : 0 ≤ k := mrv_consistencia_nonneg f _ _ _ e
  have hk1 : k ≤ 1 := mrv_consistencia_le_one f _ _ _ e
  have hv0 : 0 ≤ v := mrv_evidencia_nonneg f _ _ _ e
  have hv1 : v ≤ 1 := mrv_evidencia_le_one f _ _ _ e
  constructor
  · have := mul_nonneg hw1 hc0
    have := mul_nonneg hw2 hk0
    have := mul_nonneg hw3 hv0
    linarith
  · have t1 : w1 / s * c ≤ w1 / s := mul_le_of_le_one_right hw1 hc1
    have t2 : w2 / s * k ≤ w2 / s := mul_le_of_le_one_right hw2 hk1
    have t3 : w3 / s * v ≤ w3 / s := mul_le_of_le_one_right hw3 hv1
    have hsum_div : w1 / s + w2 / s + w3 / s ≤ 1 := by
      rw [div_add_div_same, div_add_div_same, div_le_one hs0]
      exact hsum
    linarith

/-- Witness for claim C7 at the template record with the default weights. -/
theorem C7_score_bounds_witness :
    (0 : ℚ) ≤ 4 / 10 ∧ (4 / 10 : ℚ) ≤ 1 ∧ (0 : ℚ) ≤ 3 / 10 ∧ (3 / 10 : ℚ) ≤ 1 ∧
    ¬ ((4 / 10 : ℚ) = 0 ∧ (3 / 10 : ℚ) = 0 ∧ (3 / 10 : ℚ) = 0) ∧
    0 ≤ (run_manual template_record (4 / 10) (3 / 10) (3 / 10) (8 / 10)).score ∧
    (run_manual template_record (4 / 10) (3 / 10) (3 / 10) (8 / 10)).score ≤ 1 :=
  ⟨by norm_num, by norm_num, by norm_num, by norm_num, by norm_num,
    (C7_score_bounds template_record (8 / 10) (4 / 10) (3 / 10) (3 / 10)
      (by norm_num) (by norm_num) (by norm_num) (by norm_num) (by norm_num)
      (by norm_num) (by norm_num)).1,
    (C7_score_bounds template_record (8 / 10) (4 / 10) (3 / 10) (3 / 10)
      (by norm_num) (by norm_num) (by norm_num) (by norm_num) (by norm_num)
      (by norm_num) (by norm_num)).2⟩

/-- Claim C8, as stated, is false at a concrete input: with the not-all-zero
weight triple `(0, 0, 1e-10)` and `k = 10`, scaling the weights changes the
score (`0.1` versus `1`), because the `1e-9` floor on the weight sum engages
on one side of the scaling but not the other. -/
theorem C8_weight_scaling_counterexample :
    (0 : ℚ) < 10 ∧ ¬ ((0 : ℚ) = 0 ∧ (0 : ℚ) = 0 ∧ eps / 10 = 0) ∧
    (run_manual zero_record (10 * 0) (10 * 0) (10 * (eps / 10)) 1).score ≠
      (run_manual zero_record 0 0 (eps / 10) 1).score := by
  refine ⟨by norm_num, by norm_num [eps], ?_⟩
  norm_num [run_manual, mrv_score, compute_features, safe_div, np_clip,
    zero_record, eps, max_def, min_def]

/-- Claim C8 (amended): scaling all three weights by a positive constant `k`
leaves the score unchanged whenever both the original weight sum and the
scaled weight sum are at least `1e-9`, so the floor on the sum is inactive
(when the floor engages on one side only, the score can change). -/
theorem C8_weight_scaling_invariance (r : OperationalRecord) (e w1 w2 w3 k : ℚ)
    (hk : 0 < k) (hsum : eps ≤ w1 + w2 + w3) (hksum : eps ≤ k * (w1 + w2 + w3)) :
    (run_manual r (k * w1) (k * w2) (k * w3) e).score =
      (run_manual r w1 w2 w3 e).score := by
  have h1 : k * w1 + k * w2 + k * w3 = k * (w1 + w2 + w3) := by ring
  simp only [run_manual, h1, max_eq_left hksum, max_eq_left hsum,
    mul_div_mul_left _ _ hk.ne']

/-- Witness for the amended claim C8: doubling the default weights at the
all-zero record leaves the score unchanged. -/
theorem C8_weight_scaling_invariance_witness :
    (0 : ℚ) < 2 ∧ eps ≤ (4 : ℚ) / 10 + 3 / 10 + 3 / 10 ∧
    eps ≤ 2 * ((4 : ℚ) / 10 + 3 / 10 + 3 / 10) ∧
    (run_manual zero_record (2 * (4 / 10)) (2 * (3 / 10)) (2 * (3 / 10)) 1).score =
      (run_manual zero_record (4 / 10) (3 / 10) (3 / 10) 1).score :=
  ⟨by norm_num, by norm_num [eps], by norm_num [eps],
    C8_weight_scaling_invariance zero_record 1 (4 / 10) (3 / 10) (3 / 10) 2
      (by norm_num) (by norm_num [eps]) (by norm_num [eps])⟩

/-- Claim C9: the all-zero record with default weights `(0.4, 0.3, 0.3)` and
default evidence `0.8` gives `completeness = 0`, `consistency = 0.3` (the
throughput penalty does not fire since `aco_por_hora = 0`), a score strictly
below `0.60` (it equals `0.33`), and status NÃO CONFORME. -/
theorem C9_scenario_b :
    (compute_features zero_record).aco_por_hora = 0 ∧
    (run_manual zero_record (4 / 10) (3 / 10) (3 / 10) (8 / 10)).completude = 0 ∧
    (run_manual zero_record (4 / 10) (3 / 10) (3 / 10) (8 / 10)).consistencia = 3 / 10 ∧
    (run_manual zero_record (4 / 10) (3 / 10) (3 / 10) (8 / 10)).score = 33 / 100 ∧
    (run_manual zero_record (4 / 10) (3 / 10) (3 / 10) (8 / 10)).score < 6 / 10 ∧
    (run_manual zero_record (4 / 10) (3 / 10) (3 / 10) (8 / 10)).status =
      Status.NAO_CONFORME := by
  refine ⟨?_, ?_, ?_, ?_, ?_, ?_⟩ <;>
    norm_num [run_manual, mrv_score, compute_features, safe_div, np_clip,
      statusOf, zero_record, eps, max_def, min_def]
